import Mathlib

/-!
Shallow embedding of the `bitcoin-etl` repository's data access layer
(`src/queries.py`), its sample-data provider (`docs/sample_data.py`) and
the price ingestion job (`etl/load_prices.py`).

Modelling conventions:
* calendar dates are represented by their Rata-Die day number (`Int`,
  days since 1970-01-01), computed from year/month/day by the standard
  civil-calendar formula; date strings are parsed by `parseDate`,
  which accepts exactly the strings `datetime.strptime(s, "%Y-%m-%d")`
  accepts (the CPython field patterns for `%Y`, `%m`, `%d` joined by
  literal dashes, then `datetime`-constructor validity); the far more
  lenient pandas timestamp parser is the abstract oracle `Env.tsParse`;
* floats are modelled as rationals (`ℚ`); Python's `round(x, 4)`
  (round-half-to-even on the 4th decimal) is `pyRound4`;
* Python exceptions are the inductive `PyExc`; a fallible call returns
  `Except PyExc α`;
* the BigQuery client, the SQL file read and the yfinance fetch are
  external effects: each is an oracle field of the environment record
  (`Env.remoteSopr`, `Env.remotePrices`, `EtlEnv.fetchResult`) holding
  the rows the effect would produce, or the exception it would raise;
* `random.seed(42)` followed by repeated `random.uniform(-0.03, 0.03)`
  yields a fixed stream of draws; the stream is the parameter
  `us : ℕ → ℚ` (draw number ↦ drawn delta), and `datetime.now().date()`
  at module import is the parameter `today : Int`.
-/

namespace BitcoinEtl

/-! ### Calendar dates (`datetime.date`, `datetime.strptime`) -/

/-- Gregorian leap-year rule. -/
def isLeap (y : Nat) : Bool :=
  (y % 4 == 0 && y % 100 != 0) || y % 400 == 0

/-- Number of days in month `m` of year `y`. -/
def daysInMonth (y m : Nat) : Nat :=
  if m = 2 then (if isLeap y then 29 else 28)
  else if m = 4 ∨ m = 6 ∨ m = 9 ∨ m = 11 then 30
  else 31

/-- A valid proleptic-Gregorian calendar date within Python's
`datetime` year range (`MINYEAR = 1`, `MAXYEAR = 9999`). -/
def validYMD (y m d : Nat) : Bool :=
  1 ≤ y && y ≤ 9999 && 1 ≤ m && m ≤ 12 && 1 ≤ d && d ≤ daysInMonth y m

/-- Rata-Die day number of a civil date: days since 1970-01-01
(Hinnant's `days_from_civil`, specialised to `y ≥ 1`). -/
def toRataDie (y m d : Nat) : Int :=
  let yy : Nat := if m ≤ 2 then y - 1 else y
  let era : Nat := yy / 400
  let yoe : Nat := yy % 400
  let mp : Nat := (m + 9) % 12
  let doy : Nat := (153 * mp + 2) / 5 + (d - 1)
  let doe : Nat := yoe * 365 + yoe / 4 - yoe / 100 + doy
  (era * 146097 + doe : Int) - 719468

/-- Split a character list on a separator character (the semantics of
`str.split(sep)` for a one-character separator). -/
def splitOnChar (sep : Char) : List Char → List (List Char)
  | [] => [[]]
  | c :: cs =>
    match splitOnChar sep cs with
    | [] => [[c]]
    | r :: rs => if c = sep then [] :: r :: rs else (c :: r) :: rs

/-- Decimal value of a digit string. -/
def digitsToNat (cs : List Char) : Nat :=
  cs.foldl (fun acc c => acc * 10 + (c.toNat - 48)) 0

/-- The `%Y` field of CPython's strptime: exactly four digits
(`TimeRE` pattern `\\d\\d\\d\\d`). -/
def parseYear (cs : List Char) : Option Nat :=
  if cs.length = 4 ∧ cs.all Char.isDigit then some (digitsToNat cs)
  else none

/-- The `%m` field of CPython's strptime: pattern
`1[0-2]|0[1-9]|[1-9]`, i.e. one or two digits whose value is 1-12. -/
def parseMonth (cs : List Char) : Option Nat :=
  if cs.length ≠ 0 ∧ cs.length ≤ 2 ∧ cs.all Char.isDigit then
    if 1 ≤ digitsToNat cs ∧ digitsToNat cs ≤ 12 then
      some (digitsToNat cs)
    else none
  else none

/-- The `%d` field of CPython's strptime: pattern
`3[01]|[12]\\d|0[1-9]|[1-9]| [1-9]`, i.e. one or two digits whose
value is 1-31, or a space followed by a nonzero digit. -/
def parseDay (cs : List Char) : Option Nat :=
  match cs with
  | [' ', c] =>
    if '1' ≤ c ∧ c ≤ '9' then some (c.toNat - 48) else none
  | _ =>
    if cs.length ≠ 0 ∧ cs.length ≤ 2 ∧ cs.all Char.isDigit then
      if 1 ≤ digitsToNat cs ∧ digitsToNat cs ≤ 31 then
        some (digitsToNat cs)
      else none
    else none

/-- Parse a `YYYY-MM-DD` date string to its Rata-Die day number.
`some` exactly when `datetime.strptime(s, "%Y-%m-%d")` succeeds: the
whole string is three `%Y` / `%m` / `%d` fields joined by literal
dashes, and the `datetime` constructor then accepts the triple (year
1-9999, day within the month). -/
def parseDate (s : String) : Option Int :=
  match splitOnChar '-' s.toList with
  | [ys, ms, ds] =>
    match parseYear ys, parseMonth ms, parseDay ds with
    | some y, some m, some d =>
      if validYMD y m d then some (toRataDie y m d) else none
    | _, _, _ => none
  | _ => none

/-! ### Python exceptions -/

/-- The exception classes distinguished by the repository's handlers.
`otherError` stands for any other `Exception` subclass reaching an
`except Exception` clause. -/
inductive PyExc where
  | valueError
  | typeError
  | googleCloudError
  | fileNotFoundError
  | otherError
deriving DecidableEq, Repr

/-! ### Sample data provider (`docs/sample_data.py`) -/

/-- `round(x, 4)`: scale by 10 000, round half to even, scale back. -/
def roundHalfEven (x : ℚ) : ℤ :=
  let f := ⌊x⌋
  let r := x - f
  if r < 1 / 2 then f
  else if 1 / 2 < r then f + 1
  else if 2 ∣ f then f else f + 1

/-- Python's `round(x, 4)` on the rational model of a float. -/
def pyRound4 (x : ℚ) : ℚ :=
  (roundHalfEven (x * 10000) : ℚ) / 10000

/-- One clamp step of the walk: `max(0.85, min(1.15, x))`. -/
def clampSopr (x : ℚ) : ℚ :=
  max (85 / 100) (min (115 / 100) x)

/-- The loop body of `generate_sample_sopr_data`: running value
`current`, one delta per remaining day; each iteration clamps
`current + change` and appends the 4-decimal rounding of the clamped
(not the rounded) value. -/
def soprValues : List ℚ → ℚ → List ℚ
  | [], _ => []
  | change :: rest, current =>
    let next := clampSopr (current + change)
    pyRound4 next :: soprValues rest next

/-- A row of the SOPR sample frame: `(date, sopr)`. -/
abbrev SoprRow := Int × ℚ

/-- A row of the price sample frame: `(date, price)`. -/
abbrev PriceRow := Int × ℚ

/-- `generate_sample_sopr_data(days)`: dates `today - i` for
`i ∈ range days`, zipped with the bounded random walk started at 1.0
driven by the seeded uniform stream `us`. -/
def generate_sample_sopr_data (us : ℕ → ℚ) (today : Int) (days : Nat) :
    List SoprRow :=
  let dates := (List.range days).map (fun (i : ℕ) => today - (i : ℤ))
  let vals := soprValues ((List.range days).map us) 1
  dates.zip vals

/-- `SAMPLE_SOPR_DATA`, the module-level constant:
`generate_sample_sopr_data(30)` evaluated at process start. -/
def SAMPLE_SOPR_DATA (us : ℕ → ℚ) (today : Int) : List SoprRow :=
  generate_sample_sopr_data us today 30

/-- `SAMPLE_PRICES`: `pd.date_range(end=today, periods=30)` (the 30
consecutive days ending today, ascending) paired with
`42000 + i * 100`. -/
def SAMPLE_PRICES (today : Int) : List PriceRow :=
  (List.range 30).map (fun i => (today - 29 + i, 42000 + 100 * (i : ℚ)))

/-! ### Data access layer (`src/queries.py`) -/

/-- The process environment seen by the query layer: the date fixed at
module import, the two remote-effect oracles, and the pandas
timestamp parser.  A remote oracle is the outcome of the whole `try`
block body of the live path (SQL file read plus BigQuery query for
SOPR; BigQuery query for prices): the rows it would return, or the
exception it would raise.  `tsParse` is the parser pandas applies to
the string bound of a datetime comparison (`pd.Timestamp`): it
accepts far more formats than `strptime("%Y-%m-%d")` (slashes,
compact digits, month names via the dateutil fallback), so it is kept
abstract; `ts_extends` records the one fact about it the code relies
on, that it accepts every string the `%Y-%m-%d` format accepts, with
the same calendar date (pandas tries ISO parsing and then dateutil,
both of which handle every such string). -/
structure Env where
  today : Int
  soprStream : ℕ → ℚ
  remoteSopr : Except PyExc (List SoprRow)
  remotePrices : Except PyExc (List PriceRow)
  tsParse : String → Option Int
  ts_extends : ∀ s d, parseDate s = some d → tsParse s = some d

/-- The `use_sample` branch of `query_sopr` (queries.py lines 39-44):
convert the date column with `pd.to_datetime`, build the boolean mask
`(date >= start_date) & (date <= end_date)` and return the filtered
frame.  The comparison parses each string bound with the pandas
timestamp parser `ts`; a bound that parser rejects raises pandas'
invalid-comparison `TypeError`. -/
def soprSampleBranch (us : ℕ → ℚ) (today : Int)
    (ts : String → Option Int)
    (start_date end_date : String) : Except PyExc (List SoprRow) :=
  let sample := SAMPLE_SOPR_DATA us today
  match ts start_date, ts end_date with
  | some s, some e =>
    .ok (sample.filter (fun r => decide (s ≤ r.1 ∧ r.1 ≤ e)))
  | _, _ => .error .typeError

/-- The `use_sample` branch of `query_prices` (queries.py lines
109-118), with the same pandas timestamp parser `ts` for the mask
bounds; the `price_usd → price` column rename does not change the
row values and is invisible at this abstraction. -/
def pricesSampleBranch (today : Int) (ts : String → Option Int)
    (start_date end_date : String) : Except PyExc (List PriceRow) :=
  let sample := SAMPLE_PRICES today
  match ts start_date, ts end_date with
  | some s, some e =>
    .ok (sample.filter (fun r => decide (s ≤ r.1 ∧ r.1 ≤ e)))
  | _, _ => .error .typeError

/-- `query_sopr(start_date, end_date, use_sample)`.  The sample branch
runs before validation; validation failure raises `ValueError`; every
exception of the live path (GoogleCloudError, FileNotFoundError, any
other Exception) falls back to `query_sopr(start_date, end_date,
use_sample=True)`. -/
def query_sopr (env : Env) (start_date end_date : String)
    (use_sample : Bool) : Except PyExc (List SoprRow) :=
  if use_sample then
    soprSampleBranch env.soprStream env.today env.tsParse start_date end_date
  else
    match parseDate start_date, parseDate end_date with
    | some _, some _ =>
      match env.remoteSopr with
      | .ok df => .ok df
      | .error _ => query_sopr env start_date end_date true
    | _, _ => .error .valueError
termination_by (if use_sample then 0 else 1)
decreasing_by simp_all

/-- `query_prices(start_date, end_date, use_sample)`: same structure
as `query_sopr` with the prices oracle and sample series. -/
def query_prices (env : Env) (start_date end_date : String)
    (use_sample : Bool) : Except PyExc (List PriceRow) :=
  if use_sample then
    pricesSampleBranch env.today env.tsParse start_date end_date
  else
    match parseDate start_date, parseDate end_date with
    | some _, some _ =>
      match env.remotePrices with
      | .ok df => .ok df
      | .error _ => query_prices env start_date end_date true
    | _, _ => .error .valueError
termination_by (if use_sample then 0 else 1)
decreasing_by simp_all

/-! ### Price ingestion job (`etl/load_prices.py`) -/

/-- A transformed OHLCV bar as produced by `fetch_btc_prices`. -/
structure PriceBar where
  date : Int
  «open» : ℚ
  high : ℚ
  low : ℚ
  close : ℚ
  volume : ℚ
deriving DecidableEq, Repr

/-- Terminal states of one run of the ingestion job. -/
inductive JobOutcome where
  | cancelled
  | noData
  | loaded (finalCount : Nat)
deriving DecidableEq, Repr

/-- The environment of one run of `etl/load_prices.py main`:
configuration, the current warehouse table (`none` when the table does
not exist), the operator's typed confirmation response, the outcome of
the yfinance fetch (post-transform rows, or the exception it would
raise) and whether the BigQuery load job would raise. -/
structure EtlEnv where
  gcpProjectId : Option String
  table : Option (List PriceBar)
  response : String
  fetchResult : Except PyExc (List PriceBar)
  uploadErr : Option PyExc

/-- `check_existing_data`: row count of the table, 0 when the table
does not exist (`NotFound` is caught). -/
def check_existing_data (table : Option (List PriceBar)) : Nat :=
  match table with
  | some rows => rows.length
  | none => 0

/-- Python whitespace as stripped by `str.strip()`. -/
def isPyWhitespace (c : Char) : Bool :=
  c = ' ' ∨ c = '\t' ∨ c = '\n' ∨ c = '\r' ∨
    c = Char.ofNat 11 ∨ c = Char.ofNat 12

/-- `str.strip()`: drop leading and trailing whitespace. -/
def pyStrip (cs : List Char) : List Char :=
  ((cs.dropWhile isPyWhitespace).reverse.dropWhile isPyWhitespace).reverse

/-- `str.lower()` on one (ASCII) character. -/
def pyLowerChar (c : Char) : Char :=
  if 'A' ≤ c ∧ c ≤ 'Z' then Char.ofNat (c.toNat + 32) else c

/-- The confirmation test of `main`:
`response.strip().lower() in ["yes", "y"]`. -/
def affirmative (response : String) : Bool :=
  (pyStrip response.toList).map pyLowerChar ∈ ["yes".toList, "y".toList]

/-- `main()` of `etl/load_prices.py` as a function from the run
environment to the run result (normal outcome or uncaught exception)
and the final warehouse table.  `validate_config` raises `ValueError`
when `GCP_PROJECT_ID` is unset; a declined confirmation returns
early; an empty fetch returns early; otherwise the load overwrites
the table (`WRITE_TRUNCATE`) and the final count is re-read. -/
def load_prices_main (env : EtlEnv) :
    Except PyExc JobOutcome × Option (List PriceBar) :=
  match env.gcpProjectId with
  | none => (.error .valueError, env.table)
  | some _ =>
    let existing_rows := check_existing_data env.table
    if existing_rows > 0 ∧ ¬affirmative env.response then
      (.ok .cancelled, env.table)
    else
      match env.fetchResult with
      | .error e => (.error e, env.table)
      | .ok df =>
        if df.isEmpty then
          (.ok .noData, env.table)
        else
          match env.uploadErr with
          | some e => (.error e, env.table)
          | none =>
            let table' := some df
            (.ok (.loaded (check_existing_data table')), table')

/-! ### Helper lemmas -/

theorem le_roundHalfEven {a : ℤ} {x : ℚ} (h : (a : ℚ) ≤ x) :
    a ≤ roundHalfEven x := by
  have hf : a ≤ ⌊x⌋ := Int.le_floor.mpr h
  simp only [roundHalfEven]
  split_ifs <;> omega

theorem roundHalfEven_le {b : ℤ} {x : ℚ} (h : x ≤ (b : ℚ)) :
    roundHalfEven x ≤ b := by
  have hfb : ⌊x⌋ ≤ b := by
    have := Int.floor_mono h
    simpa using this
  have hfx : (⌊x⌋ : ℚ) ≤ x := Int.floor_le x
  simp only [roundHalfEven]
  split_ifs with h1 h2 h3
  · exact hfb
  · have hhalf : (⌊x⌋ : ℚ) + 1 / 2 < x := by linarith
    have : (⌊x⌋ : ℚ) < (b : ℚ) := by linarith
    have : ⌊x⌋ < b := by exact_mod_cast this
    omega
  · exact hfb
  · have hhalf : (⌊x⌋ : ℚ) + 1 / 2 ≤ x := by
      have := not_lt.mp h1
      linarith
    have : (⌊x⌋ : ℚ) < (b : ℚ) := by linarith
    have : ⌊x⌋ < b := by exact_mod_cast this
    omega

theorem clampSopr_bounds (x : ℚ) :
    85 / 100 ≤ clampSopr x ∧ clampSopr x ≤ 115 / 100 := by
  unfold clampSopr
  exact ⟨le_max_left _ _, max_le (by norm_num) (min_le_left _ _)⟩

theorem pyRound4_bounds {x : ℚ} (h1 : 85 / 100 ≤ x) (h2 : x ≤ 115 / 100) :
    85 / 100 ≤ pyRound4 x ∧ pyRound4 x ≤ 115 / 100 := by
  have l1 : (8500 : ℤ) ≤ roundHalfEven (x * 10000) :=
    le_roundHalfEven (by push_cast; linarith)
  have l2 : roundHalfEven (x * 10000) ≤ (11500 : ℤ) :=
    roundHalfEven_le (by push_cast; linarith)
  have q1 : (8500 : ℚ) ≤ (roundHalfEven (x * 10000) : ℚ) := by exact_mod_cast l1
  have q2 : (roundHalfEven (x * 10000) : ℚ) ≤ 11500 := by exact_mod_cast l2
  unfold pyRound4
  constructor <;> [linarith; linarith]

theorem soprValues_mem_bounds :
    ∀ (ds : List ℚ) (c v : ℚ), v ∈ soprValues ds c →
      85 / 100 ≤ v ∧ v ≤ 115 / 100
  | [], c, v, hv => by simp [soprValues] at hv
  | d :: rest, c, v, hv => by
    simp only [soprValues, List.mem_cons] at hv
    rcases hv with rfl | hv
    · exact pyRound4_bounds (clampSopr_bounds _).1 (clampSopr_bounds _).2
    · exact soprValues_mem_bounds rest _ v hv

theorem soprValues_length (ds : List ℚ) (c : ℚ) :
    (soprValues ds c).length = ds.length := by
  induction ds generalizing c with
  | nil => simp [soprValues]
  | cons d rest ih => simp [soprValues, ih]

theorem sample_dates_mem (us : ℕ → ℚ) (today : Int) (r : SoprRow)
    (hr : r ∈ SAMPLE_SOPR_DATA us today) :
    today - 29 ≤ r.1 ∧ r.1 ≤ today := by
  obtain ⟨d, v⟩ := r
  have hd : d ∈ (List.range 30).map (fun i => today - (i : ℕ)) :=
    (List.of_mem_zip hr).1
  simp only [List.mem_map, List.mem_range] at hd
  obtain ⟨i, hi, rfl⟩ := hd
  constructor <;> simp <;> omega

/-! ### Claim theorems -/

/-- C4: for every `day_count ≥ 1` and every delta stream whose draws
lie in `[-0.03, 0.03]`, every sopr value produced by
`generate_sample_sopr_data day_count` lies in `[0.85, 1.15]`: the
clamp is applied to the running value before rounding, and rounding a
value between the two exact 4-decimal bounds stays between them. -/
theorem sample_sopr_values_clamped (us : ℕ → ℚ) (today : Int)
    (days : ℕ) (hdays : 1 ≤ days)
    (hus : ∀ n, -(3 / 100) ≤ us n ∧ us n ≤ 3 / 100)
    (p : SoprRow) (hp : p ∈ generate_sample_sopr_data us today days) :
    85 / 100 ≤ p.2 ∧ p.2 ≤ 115 / 100 := by
  obtain ⟨d, v⟩ := p
  have hv : v ∈ soprValues ((List.range days).map us) 1 :=
    (List.of_mem_zip hp).2
  exact soprValues_mem_bounds _ _ _ hv

theorem sample_sopr_values_clamped_witness :
    (85 / 100 : ℚ) ≤ 1 ∧ (1 : ℚ) ≤ 115 / 100 := by
  have hgen : generate_sample_sopr_data (fun _ => 0) 0 1 = [(0, 1)] := by
    norm_num [generate_sample_sopr_data, soprValues, clampSopr, pyRound4,
      roundHalfEven, List.range_succ]
  have hmem : ((0 : Int), (1 : ℚ)) ∈ generate_sample_sopr_data (fun _ => 0) 0 1 := by
    rw [hgen]; exact List.mem_singleton_self _
  exact sample_sopr_values_clamped (fun _ => 0) 0 1 le_rfl
    (fun n => by norm_num) (0, 1) hmem

/-- C5: for valid dates with `start ≤ end`,
`query_sopr start end use_sample=True` returns only rows whose date is
in `[start, end]`, and every returned date occurs among the dates of
the full `SAMPLE_SOPR_DATA` series. -/
theorem query_sopr_sample_filters_range (env : Env) (s e : String)
    (ps pe : Int) (hs : parseDate s = some ps) (he : parseDate e = some pe)
    (hle : ps ≤ pe) (rows : List SoprRow)
    (hq : query_sopr env s e true = .ok rows) :
    (∀ r ∈ rows, ps ≤ r.1 ∧ r.1 ≤ pe) ∧
      ∀ r ∈ rows,
        r.1 ∈ (SAMPLE_SOPR_DATA env.soprStream env.today).map Prod.fst := by
  rw [query_sopr, if_pos rfl, soprSampleBranch,
    env.ts_extends s ps hs, env.ts_extends e pe he] at hq
  simp only [Except.ok.injEq] at hq
  subst hq
  constructor
  · intro r hr
    have := (List.mem_filter.mp hr).2
    simpa using this
  · intro r hr
    exact List.mem_map_of_mem Prod.fst (List.mem_filter.mp hr).1

theorem query_sopr_sample_filters_range_witness :
    (∀ r ∈ ([] : List SoprRow), (19723 : Int) ≤ r.1 ∧ r.1 ≤ 19753) ∧
      ∀ r ∈ ([] : List SoprRow),
        r.1 ∈ (SAMPLE_SOPR_DATA (fun _ => (0 : ℚ)) 0).map Prod.fst := by
  have hq : query_sopr ⟨0, fun _ => 0, .ok [], .ok [], parseDate, fun _ _ h => h⟩
      "2024-01-01" "2024-01-31" true = .ok [] := by
    rw [query_sopr, if_pos rfl, soprSampleBranch]
    rw [show (⟨0, fun _ => 0, .ok [], .ok [], parseDate,
        fun _ _ h => h⟩ : Env).tsParse = parseDate from rfl]
    rw [show parseDate "2024-01-01" = some 19723 from by decide,
      show parseDate "2024-01-31" = some 19753 from by decide]
    refine congrArg Except.ok (List.filter_eq_nil_iff.mpr ?_)
    intro a ha
    have hb := sample_dates_mem _ _ a ha
    dsimp only at hb
    simp only [decide_eq_true_eq, not_and]
    intro hge
    omega
  exact query_sopr_sample_filters_range _ "2024-01-01" "2024-01-31"
    19723 19753 (by decide) (by decide) (by decide) [] hq

/-- C6: `generate_sample_sopr_data 30` is a pure function of the
seeded draw stream and the process-start date: two calls with the
same fixed-seed stream and the same current date produce identical
output (the determinism the fixed `random.seed(42)` provides). -/
theorem sample_sopr_deterministic (us₁ us₂ : ℕ → ℚ) (t₁ t₂ : Int)
    (hus : us₁ = us₂) (ht : t₁ = t₂) :
    generate_sample_sopr_data us₁ t₁ 30 =
      generate_sample_sopr_data us₂ t₂ 30 := by
  rw [hus, ht]

theorem sample_sopr_deterministic_witness :
    generate_sample_sopr_data (fun _ => 0) 0 30 =
      generate_sample_sopr_data (fun _ => 0) 0 30 :=
  sample_sopr_deterministic (fun _ => 0) (fun _ => 0) 0 0 rfl rfl

/-- C1: for any valid date range, when the remote price query raises
(whatever the exception), `query_prices start end use_sample=False`
does not raise: it returns exactly what
`query_prices start end use_sample=True` returns, which is the `ok`
sample-data result filtered to the range. -/
theorem query_prices_fallback_equals_sample (env : Env) (s e : String)
    (ps pe : Int) (hs : parseDate s = some ps) (he : parseDate e = some pe)
    (ex : PyExc) (hr : env.remotePrices = .error ex) :
    query_prices env s e false = query_prices env s e true ∧
      ∃ rows, query_prices env s e false = .ok rows := by
  have hfalse : query_prices env s e false = query_prices env s e true := by
    rw [query_prices, if_neg (by simp), hs, he, hr]
  refine ⟨hfalse, ?_⟩
  rw [hfalse, query_prices, if_pos rfl, pricesSampleBranch,
    env.ts_extends s ps hs, env.ts_extends e pe he]
  exact ⟨_, rfl⟩

theorem query_prices_fallback_equals_sample_witness :
    query_prices
        ⟨0, fun _ => 0, .ok [], .error .googleCloudError, parseDate,
          fun _ _ h => h⟩
        "2024-01-01" "2024-01-31" false =
      query_prices
        ⟨0, fun _ => 0, .ok [], .error .googleCloudError, parseDate,
          fun _ _ h => h⟩
        "2024-01-01" "2024-01-31" true :=
  (query_prices_fallback_equals_sample _ "2024-01-01" "2024-01-31"
    19723 19753 (by decide) (by decide) .googleCloudError rfl).1

/-- C2 counterexample: at the concrete invalid calendar date
`"2024-02-30"` with `use_sample=True`, `query_sopr` raises the pandas
invalid-comparison `TypeError`, not the `InvalidDateRange`-class
`ValueError` the claim asserts for both modes: the sample branch runs
before the `strptime` validation.  The concrete environment takes
`tsParse := parseDate`, which agrees with `pd.Timestamp` at both
strings involved: pandas rejects `"2024-02-30"` (day out of range for
the month) and accepts `"2024-03-01"`. -/
theorem query_sopr_invalid_date_counterexample :
    query_sopr ⟨0, fun _ => 0, .ok [], .ok [], parseDate, fun _ _ h => h⟩
        "2024-02-30" "2024-03-01" true = .error .typeError ∧
      PyExc.typeError ≠ PyExc.valueError := by
  refine ⟨?_, by decide⟩
  rw [query_sopr, if_pos rfl, soprSampleBranch]
  rw [show (⟨0, fun _ => 0, .ok [], .ok [], parseDate,
      fun _ _ h => h⟩ : Env).tsParse = parseDate from rfl]
  rw [show parseDate "2024-02-30" = none from by decide]

/-- C2 amended: when either date fails to parse as a valid
`YYYY-MM-DD` calendar date, `query_sopr` with `use_sample=False`
raises the `InvalidDateRange`-class `ValueError`; with
`use_sample=True` the sample branch runs before validation, so the
`strptime` check never executes and no `InvalidDateRange` error is
raised: instead the call raises the pandas invalid-comparison
`TypeError` when the pandas timestamp parser also rejects a bound (as
it does at the invalid calendar date `"2024-02-30"`), and succeeds
with the filtered sample frame when that parser accepts both bounds
(as it does for strptime-invalid but pandas-parseable strings such as
`"2024/01/01"`). -/
theorem query_sopr_invalid_date_amended (env : Env) (s e : String)
    (h : parseDate s = none ∨ parseDate e = none) :
    query_sopr env s e false = .error .valueError ∧
      ((env.tsParse s = none ∨ env.tsParse e = none) →
        query_sopr env s e true = .error .typeError) ∧
      ∀ ps pe, env.tsParse s = some ps → env.tsParse e = some pe →
        ∃ rows, query_sopr env s e true = .ok rows := by
  refine ⟨?_, ?_, ?_⟩
  · rw [query_sopr, if_neg (by simp)]
    rcases h with h | h
    · rw [h]
    · cases hps : parseDate s with
      | none => rfl
      | some v => rw [h]
  · intro ht
    rw [query_sopr, if_pos rfl, soprSampleBranch]
    rcases ht with ht | ht
    · rw [ht]
    · cases hts : env.tsParse s with
      | none => rfl
      | some v => rw [ht]
  · intro ps pe hts hte
    rw [query_sopr, if_pos rfl, soprSampleBranch, hts, hte]
    exact ⟨_, rfl⟩

theorem query_sopr_invalid_date_amended_witness :
    query_sopr ⟨0, fun _ => 0, .ok [], .ok [], parseDate, fun _ _ h => h⟩
        "2024-02-30" "2024-03-01" false = .error .valueError ∧
      query_sopr ⟨0, fun _ => 0, .ok [], .ok [], parseDate, fun _ _ h => h⟩
        "2024-02-30" "2024-03-01" true = .error .typeError :=
  ⟨(query_sopr_invalid_date_amended _ "2024-02-30" "2024-03-01"
      (Or.inl (by decide))).1,
    (query_sopr_invalid_date_amended _ "2024-02-30" "2024-03-01"
      (Or.inl (by decide))).2.1 (Or.inl (by decide))⟩

/-- C3: when the remote query succeeds, `query_sopr` and
`query_prices` return the live rows unchanged — in particular a
successful empty result is returned as-is, with no fallback to sample
data; only exceptions trigger the fallback. -/
theorem query_live_success_returned_as_is (env : Env) (s e : String)
    (ps pe : Int) (hs : parseDate s = some ps) (he : parseDate e = some pe)
    (soprRows : List SoprRow) (priceRows : List PriceRow)
    (hr : env.remoteSopr = .ok soprRows)
    (hp : env.remotePrices = .ok priceRows) :
    query_sopr env s e false = .ok soprRows ∧
      query_prices env s e false = .ok priceRows := by
  constructor
  · rw [query_sopr, if_neg (by simp), hs, he, hr]
  · rw [query_prices, if_neg (by simp), hs, he, hp]

theorem query_live_success_returned_as_is_witness :
    query_sopr ⟨19723, fun _ => 0, .ok [], .ok [], parseDate, fun _ _ h => h⟩
        "2024-01-01" "2024-01-31" false = .ok [] ∧
      query_prices
        ⟨19723, fun _ => 0, .ok [], .ok [], parseDate, fun _ _ h => h⟩
        "2024-01-01" "2024-01-31" false = .ok [] :=
  query_live_success_returned_as_is _ "2024-01-01" "2024-01-31"
    19723 19753 (by decide) (by decide) [] [] rfl rfl

/-- C9: both query functions are total Lean functions (the definitions
compile with the termination measure `use_sample=False > use_sample=True`),
and the fallback self-invocation resolves in one step: the
`use_sample=True` call is exactly the non-recursive sample branch, and
on a remote failure with valid dates the `use_sample=False` call
equals that same non-recursive sample branch — no further fallback is
reachable. -/
theorem query_fallback_at_most_once (env : Env) (s e : String) :
    (query_sopr env s e true =
        soprSampleBranch env.soprStream env.today env.tsParse s e) ∧
      (query_prices env s e true =
        pricesSampleBranch env.today env.tsParse s e) ∧
      (∀ ex, env.remoteSopr = .error ex →
        ∀ ps pe, parseDate s = some ps → parseDate e = some pe →
          query_sopr env s e false =
            soprSampleBranch env.soprStream env.today env.tsParse s e) ∧
      ∀ ex, env.remotePrices = .error ex →
        ∀ ps pe, parseDate s = some ps → parseDate e = some pe →
          query_prices env s e false =
            pricesSampleBranch env.today env.tsParse s e := by
  refine ⟨by rw [query_sopr, if_pos rfl], by rw [query_prices, if_pos rfl],
    ?_, ?_⟩
  · intro ex hex ps pe hs he
    rw [query_sopr, if_neg (by simp), hs, he, hex, query_sopr, if_pos rfl]
  · intro ex hex ps pe hs he
    rw [query_prices, if_neg (by simp), hs, he, hex, query_prices,
      if_pos rfl]

theorem query_fallback_at_most_once_witness :
    query_sopr
        ⟨0, fun _ => 0, .error .otherError, .error .otherError, parseDate,
          fun _ _ h => h⟩
        "2024-01-01" "2024-01-31" false =
      soprSampleBranch (fun _ => 0) 0 parseDate "2024-01-01" "2024-01-31" :=
  (query_fallback_at_most_once
      ⟨0, fun _ => 0, .error .otherError, .error .otherError, parseDate,
        fun _ _ h => h⟩
      "2024-01-01" "2024-01-31").2.2.1 .otherError rfl
    19723 19753 (by decide) (by decide)

/-- C10: the sample series is the fixed 30-day window ending at
process start: the dates of `SAMPLE_SOPR_DATA` are exactly
`today - i` for `i < 30`; a `use_sample=True` query therefore never
returns more than 30 rows, and a valid range lying entirely outside
the window (ending before `today - 29`, or starting after `today`)
returns an empty result. -/
theorem query_sopr_sample_window (env : Env) (s e : String)
    (ps pe : Int) (hs : parseDate s = some ps) (he : parseDate e = some pe)
    (hle : ps ≤ pe) :
    ((SAMPLE_SOPR_DATA env.soprStream env.today).map Prod.fst =
        (List.range 30).map (fun i => env.today - i)) ∧
      (∀ rows, query_sopr env s e true = .ok rows → rows.length ≤ 30) ∧
      ((pe < env.today - 29 ∨ env.today < ps) →
        query_sopr env s e true = .ok []) := by
  have hlen : ((List.range 30).map env.soprStream).length = 30 := by simp
  refine ⟨?_, ?_, ?_⟩
  · rw [SAMPLE_SOPR_DATA, generate_sample_sopr_data]
    exact List.map_fst_zip _ _ (by simp [soprValues_length])
  · intro rows hq
    rw [query_sopr, if_pos rfl, soprSampleBranch,
      env.ts_extends s ps hs, env.ts_extends e pe he] at hq
    simp only [Except.ok.injEq] at hq
    subst hq
    calc (List.filter _ _).length
        ≤ (SAMPLE_SOPR_DATA env.soprStream env.today).length :=
          List.length_filter_le _ _
      _ ≤ 30 := by
          rw [SAMPLE_SOPR_DATA, generate_sample_sopr_data, List.length_zip]
          rw [List.length_map, List.length_range, soprValues_length,
            List.length_map, List.length_range]
          norm_num
  · intro hout
    rw [query_sopr, if_pos rfl, soprSampleBranch,
      env.ts_extends s ps hs, env.ts_extends e pe he]
    refine congrArg Except.ok (List.filter_eq_nil_iff.mpr ?_)
    intro a ha
    have hb := sample_dates_mem _ _ a ha
    simp only [decide_eq_true_eq, not_and]
    intro hge
    rcases hout with hout | hout <;> omega

theorem query_sopr_sample_window_witness :
    query_sopr ⟨0, fun _ => 0, .ok [], .ok [], parseDate, fun _ _ h => h⟩
        "2024-01-01" "2024-01-31" true = .ok [] :=
  (query_sopr_sample_window
      ⟨0, fun _ => 0, .ok [], .ok [], parseDate, fun _ _ h => h⟩
      "2024-01-01" "2024-01-31" 19723 19753
      (by decide) (by decide) (by decide)).2.2
    (Or.inr (by decide))

/-- C7: when the target table holds more than zero rows and the
operator's response, trimmed and lowercased, is neither `"yes"` nor
`"y"`, the ingestion job ends in the `Cancelled` state with the
warehouse table unchanged and no rows written. -/
theorem load_prices_cancelled_leaves_table (env : EtlEnv) (pid : String)
    (hpid : env.gcpProjectId = some pid)
    (hrows : 0 < check_existing_data env.table)
    (hresp : affirmative env.response = false) :
    load_prices_main env = (.ok .cancelled, env.table) := by
  rw [load_prices_main, hpid]
  rw [if_pos]
  exact ⟨hrows, by simp [hresp]⟩

theorem load_prices_cancelled_leaves_table_witness :
    load_prices_main
        ⟨some "p", some (List.replicate 100 ⟨0, 0, 0, 0, 0, 0⟩), "no",
          .ok [⟨0, 1, 1, 1, 1, 1⟩], none⟩ =
      (.ok .cancelled, some (List.replicate 100 ⟨0, 0, 0, 0, 0, 0⟩)) :=
  load_prices_cancelled_leaves_table _ "p" rfl
    (by simp [check_existing_data]) (by decide)

/-- C8: when the run reaches the fetch (no rows to confirm, or the
operator confirmed) and the external fetch returns an empty result
set, the job ends in the `NoData` state without loading: the target
table keeps its prior contents. -/
theorem load_prices_nodata_leaves_table (env : EtlEnv) (pid : String)
    (hpid : env.gcpProjectId = some pid)
    (hpass : check_existing_data env.table = 0 ∨
      affirmative env.response = true)
    (hfetch : env.fetchResult = .ok []) :
    load_prices_main env = (.ok .noData, env.table) := by
  rw [load_prices_main, hpid]
  rw [if_neg, hfetch]
  · rfl
  · rcases hpass with hpass | hpass <;> simp [hpass]

theorem load_prices_nodata_leaves_table_witness :
    load_prices_main
        ⟨some "p", some [⟨0, 2, 2, 2, 2, 2⟩], "yes", .ok [], none⟩ =
      (.ok .noData, some [⟨0, 2, 2, 2, 2, 2⟩]) :=
  load_prices_nodata_leaves_table _ "p" rfl (Or.inr (by decide)) rfl

end BitcoinEtl
